import Mathlib

/-!
Shallow embedding of the configuration-derivation core of the repository
(src/src/compiler/config/validate-config.ts and the transpile-option module
src/unnamed/part_000), together with theorems settling the frozen claims
about it.

JavaScript values that flow through the config fields are modelled by the
inductive type JVal (undefined, null, booleans, numbers, strings); numbers
are modelled as integers, which covers every value the claims mention.
-/

/-- Model of a loosely-typed JavaScript value as it appears in config
fields: undefined, null, boolean, number (modelled as an integer) or
string. -/
inductive JVal where
  | undef
  | null
  | bool (b : Bool)
  | num (n : Int)
  | str (s : String)
deriving DecidableEq, Repr

/-- Embedding of the isString helper from the utils module:
typeof v === "string". -/
def isString : JVal → Bool
  | JVal.str _ => true
  | _ => false

/-- Embedding of the isBoolean helper from the utils module:
typeof v === "boolean". -/
def isBoolean : JVal → Bool
  | JVal.bool _ => true
  | _ => false

/-- Embedding of the isNumber helper from the utils module:
typeof v === "number". -/
def isNumber : JVal → Bool
  | JVal.num _ => true
  | _ => false

/-- JavaScript truthiness of a JVal: undefined and null are falsy, a
boolean is itself, a number is truthy unless zero, a string is truthy
unless empty. -/
def truthy : JVal → Bool
  | JVal.undef => false
  | JVal.null => false
  | JVal.bool b => b
  | JVal.num n => n != 0
  | JVal.str s => s ≠ ""

/-- Double negation in JS maps a boolean to itself. -/
@[simp]
theorem truthy_bool (b : Bool) : truthy (JVal.bool b) = b := rfl

/-- Model of the JS String.prototype.toLowerCase on one character:
an ASCII capital letter is shifted to its lowercase form.  (Lean has a
builtin toLower, but it does not reduce inside the kernel; this
explicit version is extensionally the same on ASCII content.) -/
def jsCharLower (c : Char) : Char :=
  if 65 ≤ c.toNat ∧ c.toNat ≤ 90 then Char.ofNat (c.toNat + 32) else c

/-- Model of the JS String.prototype.toLowerCase over the character
list of a string. -/
def jsToLower (s : String) : String := ⟨s.data.map jsCharLower⟩

/-- Model of the JS String.prototype.trim: drop whitespace characters
from both ends of the string. -/
def jsTrim (s : String) : String :=
  ⟨((s.data.dropWhile Char.isWhitespace).reverse.dropWhile Char.isWhitespace).reverse⟩

/-- Embedding of getTranspileConfigOpt (src/unnamed/part_000, lines
175-184).  An allow-list (a JS Set that may contain null alongside
strings) is modelled as a list of Option String, with none standing for
the null member; the returned value is an Option String, none standing
for the JS null result.  The source first returns null for the inputs
null and "null", then lowercases and trims a string input (a non-string
input becomes null at this point), and returns that value when the set
contains it, the fallback otherwise. -/
def getTranspileConfigOpt (value : JVal) (validValues : List (Option String))
    (defaultValue : Option String) : Option String :=
  if value = JVal.null ∨ value = JVal.str "null" then
    none
  else
    let v : Option String :=
      match value with
      | JVal.str s => some (jsTrim (jsToLower s))
      | _ => none
    if validValues.contains v then v else defaultValue

/-- Allow-list VALID_EXPORT (src/unnamed/part_000, line 186). -/
def VALID_EXPORT : List (Option String) := [some "customelement", some "module"]

/-- Allow-list VALID_METADATA (src/unnamed/part_000, line 187). -/
def VALID_METADATA : List (Option String) := [some "compilerstatic", none]

/-- Allow-list VALID_MODULE (src/unnamed/part_000, line 188). -/
def VALID_MODULE : List (Option String) := [some "cjs", some "esm"]

/-- Allow-list VALID_PROXY (src/unnamed/part_000, line 189). -/
def VALID_PROXY : List (Option String) := [some "defineproperty", none]

/-- Allow-list VALID_STYLE (src/unnamed/part_000, line 190). -/
def VALID_STYLE : List (Option String) := [some "static"]

/-- Allow-list VALID_STYLE_IMPORT_DATA (src/unnamed/part_000, line 191). -/
def VALID_STYLE_IMPORT_DATA : List (Option String) := [some "queryparams"]

/-- Allow-list VALID_TARGET (src/unnamed/part_000, line 192). -/
def VALID_TARGET : List (Option String) :=
  [some "latest", some "esnext", some "es2020", some "es2019", some "es2018",
   some "es2017", some "es2016", some "es2015", some "es5"]

/-- The seven enum-like transpile fields, each paired with its allow-list
and the fallback passed at its call site in getTranspileConfig
(src/unnamed/part_000, lines 65-77): componentExport, componentMetadata,
proxy, module, style, styleImportData, target. -/
def transpileEnumFields : List (List (Option String) × Option String) :=
  [(VALID_EXPORT, some "customelement"),
   (VALID_METADATA, none),
   (VALID_PROXY, some "defineproperty"),
   (VALID_MODULE, some "esm"),
   (VALID_STYLE, some "static"),
   (VALID_STYLE_IMPORT_DATA, some "queryparams"),
   (VALID_TARGET, some "latest")]

/-- On a string input other than "null", the normalizer lowercases and
trims it and consults the allow-list. -/
theorem getTranspileConfigOpt_str (s : String) (A : List (Option String))
    (d : Option String) (hs : s ≠ "null") :
    getTranspileConfigOpt (JVal.str s) A d =
      if A.contains (some (jsTrim (jsToLower s))) then some (jsTrim (jsToLower s)) else d := by
  simp [getTranspileConfigOpt, hs]

/-- On a non-string input other than null, the normalizer coerces the
value to null before the membership test, so the result is null when the
allow-list contains null and the fallback otherwise. -/
theorem getTranspileConfigOpt_nonstr (v : JVal) (A : List (Option String))
    (d : Option String) (h1 : isString v = false) (h2 : v ≠ JVal.null) :
    getTranspileConfigOpt v A d = if A.contains none then none else d := by
  cases v <;> simp_all [getTranspileConfigOpt, isString]

/-!
Model of the inline field logic of validateConfig
(src/src/compiler/config/validate-config.ts).  The function delegates
many sub-objects to external validators (paths, namespaces, output
targets, plugins, dev server, testing, workers); those are outside this
core.  The inline logic the claims are about — devMode resolution
(lines 97-104), the extras sub-object (lines 106-125), hashed file names
(lines 152-166) and watchIgnoredRegex (lines 205-213) — is embedded
field by field below, in source order, and the diagnostics list holds
exactly the messages those inline checks append.
-/

/-- Constant DEFAULT_DEV_MODE (validate-config.ts, line 223). -/
def DEFAULT_DEV_MODE : Bool := false

/-- Constant DEFAULT_HASHED_FILENAME_LENTH (validate-config.ts, line 224). -/
def DEFAULT_HASHED_FILENAME_LENTH : Int := 8

/-- Constant MIN_HASHED_FILENAME_LENTH (validate-config.ts, line 225). -/
def MIN_HASHED_FILENAME_LENTH : Int := 4

/-- Constant MAX_HASHED_FILENAME_LENTH (validate-config.ts, line 226). -/
def MAX_HASHED_FILENAME_LENTH : Int := 32

/-- The prod and dev properties of the flags sub-object after its JSON
round-trip (validate-config.ts, line 83); an absent flags object gives
both properties value undefined. -/
structure Flags where
  prod : JVal
  dev : JVal
deriving DecidableEq, Repr

/-- The extras sub-object, with every property a loose JS value
(validate-config.ts, lines 106-125 name exactly these nine properties). -/
structure Extras where
  appendChildSlotFix : JVal
  cloneNodeFix : JVal
  lifecycleDOMEvents : JVal
  scriptDataOpts : JVal
  slotChildNodesFix : JVal
  initializeNextTick : JVal
  tagNameTransform : JVal
  experimentalSlotFixes : JVal
  scopedSlotTextContentFix : JVal
deriving DecidableEq, Repr

/-- An extras object on which no property was ever set: every property
reads as undefined. -/
def emptyExtras : Extras :=
  ⟨JVal.undef, JVal.undef, JVal.undef, JVal.undef, JVal.undef, JVal.undef,
   JVal.undef, JVal.undef, JVal.undef⟩

/-- A value of the watchIgnoredRegex field.  A RegExp object is
identified by an abstract id; array entries are modelled by WItem.
The source code never looks inside an entry beyond the instanceof RegExp
test, so nested structure of non-RegExp entries is irrelevant and an
array-valued entry is collapsed to the arrI marker. -/
inductive WItem where
  | regex (id : Nat)
  | strI (s : String)
  | numI (n : Int)
  | boolI (b : Bool)
  | nullI
  | arrI
deriving DecidableEq, Repr

/-- A top-level value of the watchIgnoredRegex field before validation. -/
inductive WVal where
  | undef
  | null
  | regex (id : Nat)
  | strV (s : String)
  | numV (n : Int)
  | boolV (b : Bool)
  | arr (xs : List WItem)
deriving DecidableEq, Repr

/-- The entry corresponding to a non-array, non-null, non-undefined
top-level value once it is wrapped into a one-element array
(validate-config.ts, line 206).  The null, undef and arr cases are
unreachable at the call site and map to arbitrary non-regex entries. -/
def toWItem : WVal → WItem
  | WVal.regex i => WItem.regex i
  | WVal.strV s => WItem.strI s
  | WVal.numV n => WItem.numI n
  | WVal.boolV b => WItem.boolI b
  | WVal.null => WItem.nullI
  | WVal.undef => WItem.nullI
  | WVal.arr _ => WItem.arrI

/-- The instanceof RegExp test on an array entry (validate-config.ts,
line 209). -/
def isRegexItem : WItem → Bool
  | WItem.regex _ => true
  | _ => false

/-- Embedding of the watchIgnoredRegex normalization
(validate-config.ts, lines 205-213): a non-array value that is neither
null nor undefined is wrapped into a one-element array; a null or
undefined value falls through to the empty-array fallback of the
next statement; finally the array is reduced to its entries that are
genuine RegExp values, in order. -/
def normalizeWatchIgnoredRegex (v : WVal) : List WItem :=
  let v1 : WVal :=
    match v with
    | WVal.arr xs => WVal.arr xs
    | WVal.null => WVal.null
    | WVal.undef => WVal.undef
    | x => WVal.arr [toWItem x]
  match v1 with
  | WVal.arr xs => xs.filter isRegexItem
  | _ => []

/-- The fields of an unvalidated user config that the inline logic of
validateConfig reads.  flags is the sub-object after the JSON
round-trip of line 83 (an absent flags object yields undefined prod and
dev properties); extras is none when the property is absent
(validate-config.ts, line 106 defaults it to an empty object). -/
structure UnvalidatedConfig where
  flags : Flags
  devMode : JVal
  extras : Option Extras
  hashFileNames : JVal
  hashedFileNameLength : JVal
  watchIgnoredRegex : WVal
deriving DecidableEq, Repr

/-- The same fields after validateConfig has run. -/
structure ValidatedFields where
  devMode : Bool
  extras : Extras
  hashFileNames : Bool
  hashedFileNameLength : Int
  watchIgnoredRegex : List WItem
deriving DecidableEq, Repr

/-- Embedding of the devMode resolution (validate-config.ts, lines
97-104): a truthy flags.prod forces false, else a truthy flags.dev
forces true, else a non-boolean devMode is replaced by
DEFAULT_DEV_MODE and a boolean devMode is kept. -/
def resolveDevMode (flags : Flags) (devMode : JVal) : Bool :=
  if truthy flags.prod then
    false
  else if truthy flags.dev then
    true
  else
    match devMode with
    | JVal.bool b => b
    | _ => DEFAULT_DEV_MODE

/-- Embedding of the extras normalization (validate-config.ts, lines
106-125): eight properties are coerced to booleans by double negation
(scopedSlotTextContentFix is not among them), then a truthy
experimentalSlotFixes forces appendChildSlotFix, cloneNodeFix,
slotChildNodesFix and scopedSlotTextContentFix to true. -/
def validateExtras (e0 : Option Extras) : Extras :=
  let e := e0.getD emptyExtras
  let e1 : Extras :=
    { appendChildSlotFix := JVal.bool (truthy e.appendChildSlotFix)
      cloneNodeFix := JVal.bool (truthy e.cloneNodeFix)
      lifecycleDOMEvents := JVal.bool (truthy e.lifecycleDOMEvents)
      scriptDataOpts := JVal.bool (truthy e.scriptDataOpts)
      slotChildNodesFix := JVal.bool (truthy e.slotChildNodesFix)
      initializeNextTick := JVal.bool (truthy e.initializeNextTick)
      tagNameTransform := JVal.bool (truthy e.tagNameTransform)
      experimentalSlotFixes := JVal.bool (truthy e.experimentalSlotFixes)
      scopedSlotTextContentFix := e.scopedSlotTextContentFix }
  if truthy e1.experimentalSlotFixes then
    { e1 with
      appendChildSlotFix := JVal.bool true
      cloneNodeFix := JVal.bool true
      slotChildNodesFix := JVal.bool true
      scopedSlotTextContentFix := JVal.bool true }
  else
    e1

/-- Embedding of the hashed-file-name logic (validate-config.ts, lines
152-166): hashFileNames defaults to the negation of devMode when not a
boolean; hashedFileNameLength is replaced by
DEFAULT_HASHED_FILENAME_LENTH when not a number, and a value below the
minimum or above the maximum appends one error diagnostic without
changing the value.  Returns the resolved pair and the appended
diagnostic messages. -/
def validateHashing (devMode : Bool) (hashFileNames : JVal)
    (hashedFileNameLength : JVal) : (Bool × Int) × List String :=
  let hfn : Bool :=
    match hashFileNames with
    | JVal.bool b => b
    | _ => !devMode
  let len : Int :=
    match hashedFileNameLength with
    | JVal.num n => n
    | _ => DEFAULT_HASHED_FILENAME_LENTH
  let diags : List String :=
    (if len < MIN_HASHED_FILENAME_LENTH then
      ["validatedConfig.hashedFileNameLength must be at least 4 characters"]
    else []) ++
    (if len > MAX_HASHED_FILENAME_LENTH then
      ["validatedConfig.hashedFileNameLength cannot be more than 32 characters"]
    else [])
  ((hfn, len), diags)

/-- The inline field logic of validateConfig over the modelled fields,
composed in source order; the returned list holds the diagnostics
appended by these inline checks (the external validators, which append
their own diagnostics to the same list, are outside this core). -/
def validateConfigFields (c : UnvalidatedConfig) : ValidatedFields × List String :=
  let devMode := resolveDevMode c.flags c.devMode
  let extras := validateExtras c.extras
  let hashing := validateHashing devMode c.hashFileNames c.hashedFileNameLength
  let watch := normalizeWatchIgnoredRegex c.watchIgnoredRegex
  ({ devMode := devMode
     extras := extras
     hashFileNames := hashing.1.1
     hashedFileNameLength := hashing.1.2
     watchIgnoredRegex := watch }, hashing.2)

/-!
Identity-level model of validateConfig and its CACHED_VALIDATED_CONFIG
cache (validate-config.ts, lines 39, 54-75 and 215-220).  Object
identity is modelled by natural-number ids together with a fresh-id
allocator: every object in existence has an id below nextId, and the
object literal of lines 79-95 allocates a new one.  The content of the
configuration is irrelevant at this level; the diagnostics the
validation pipeline would append on a cache miss are passed in as a
count. -/

/-- The mutable state surrounding validateConfig: the single cached
validated config (null initially) and the allocator bound for fresh
object ids. -/
structure VState where
  cache : Option Nat
  nextId : Nat
deriving DecidableEq, Repr

/-- Embedding of validateConfig at the object-identity level.  When the
cached config is the same object as the input (line 60), the input is
returned with the empty diagnostics list declared on line 58 and the
state is untouched.  Otherwise the body builds a fresh validatedConfig
object (lines 75-95), runs the pipeline, which appends pipelineDiags
diagnostics, stores the fresh object in the cache (line 215) and
returns it.  Result: (id of the returned config, number of returned
diagnostics, new state). -/
def validateConfig (s : VState) (userConfig : Nat) (pipelineDiags : Nat) :
    Nat × Nat × VState :=
  if s.cache = some userConfig then
    (userConfig, 0, s)
  else
    (s.nextId, pipelineDiags, ⟨some s.nextId, s.nextId + 1⟩)

/-!
Model of the transpile-option module (src/unnamed/part_000).
-/

/-- Structured import data of a parsed import path: tag, encapsulation
and mode, each possibly absent. -/
structure ImportData where
  tag : Option String
  encapsulation : Option String
  mode : Option String
deriving DecidableEq, Repr

/-- Result of parsing an import path: the structured import data (null
when the path carries none) and the file extension. -/
structure ParsedImport where
  data : Option ImportData
  ext : String
deriving DecidableEq, Repr

/-- Modelled from the spec: parseImportPath, which src/unnamed/part_000
pulls in from the transformers module whose source is not in the
repository snapshot, parses a file path into structured import data
(tag, encapsulation, mode) plus the file extension.  The extension is
the text after the final dot of the path; a path without a dot has the
empty extension; a plain path carries no structured data. -/
def parseImportPath (p : String) : ParsedImport :=
  { data := none
    ext := if (p.splitOn ".").length ≤ 1 then "" else (p.splitOn ".").getLast! }

/-- The fields of a TranspileOptions object that the modelled functions
read or write. -/
structure TranspileOptions where
  file : JVal
  componentExport : JVal
  componentMetadata : JVal
  proxy : JVal
  module : JVal
  style : JVal
  styleImportData : JVal
  target : JVal
deriving DecidableEq, Repr

/-- The TranspileResults envelope built by getTranspileResults
(src/unnamed/part_000, lines 22-31). -/
structure TranspileResults where
  code : String
  data : List ImportData
  diagnostics : List String
  inputFileExtension : String
  inputFilePath : String
  imports : List String
  map : Option String
  outputFilePath : Option String
deriving DecidableEq, Repr

/-- Return value of getTranspileResults together with the state of the
caller-owned input object after the call: the source mutates input.file
in place (line 18), which the shallow embedding renders by returning the
updated input alongside the source return object of line 33. -/
structure TranspileResultsOut where
  input : TranspileOptions
  importData : Option ImportData
  results : TranspileResults
deriving DecidableEq, Repr

/-- Embedding of getTranspileResults (src/unnamed/part_000, lines
16-37): a non-string input.file is overwritten with the placeholder
"module.tsx" on the input object itself; the (now string) file is
parsed; and the result envelope is built with the given code (empty
when not a string), empty data, diagnostics and imports, the parsed
extension, the file as input path, and null map and output path. -/
def getTranspileResults (code : JVal) (input0 : TranspileOptions) :
    TranspileResultsOut :=
  let input :=
    if isString input0.file then input0 else { input0 with file := JVal.str "module.tsx" }
  let fileStr :=
    match input.file with
    | JVal.str s => s
    | _ => ""
  let parsedImport := parseImportPath fileStr
  { input := input
    importData := parsedImport.data
    results :=
      { code := match code with | JVal.str s => s | _ => ""
        data := []
        diagnostics := []
        inputFileExtension := parsedImport.ext
        inputFilePath := fileStr
        imports := []
        map := none
        outputFilePath := none } }

/-- Embedding of the system-memoization step of getTranspileConfig
(src/unnamed/part_000, lines 39 and 58-62), at the identity level:
systems are identified by abstract ids, the memo slot transpileCtx.sys
starts as null (none).  A supplied input.sys is written to the slot
unconditionally; otherwise an empty slot is filled with a freshly
constructed default node system; otherwise the slot is left as is.
Returns the slot content after the call, which is also the system the
rest of getTranspileConfig uses. -/
def transpileCtxSysNext (ctxSys : Option Nat) (inputSys : Option Nat)
    (freshDefault : Nat) : Option Nat :=
  match inputSys with
  | some s => some s
  | none =>
    match ctxSys with
    | some m => some m
    | none => some freshDefault

/-!
Claim C1: the identity cache.
-/

/-- Claim C1 as stated: calling validateConfig twice with the same
object (id u) as input returns the identical validated object and an
empty diagnostics list on the second call, whatever diagnostics the
pipeline would produce on each run. -/
def claimC1Stated : Prop :=
  ∀ (s : VState) (u d1 d2 : Nat), u < s.nextId →
    (validateConfig (validateConfig s u d1).2.2 u d2).1 = (validateConfig s u d1).1 ∧
    (validateConfig (validateConfig s u d1).2.2 u d2).2.1 = 0

/-- Claim C1 is false as stated: starting from the initial state (empty
cache, ids below 1 in use) and calling twice with the object of id 0,
the first call returns the fresh object 1 and caches it, so the second
call misses the cache (the cache holds the output object, not the
input) and returns another fresh object 2. -/
theorem C1_counterexample : ¬ claimC1Stated := by
  intro h
  exact absurd ((h ⟨none, 1⟩ 0 0 0 (by decide)).1) (by decide)

/-- Claim C1 (amended): whenever the cached ValidatedConfig is the same
object identity as the new input, validateConfig returns it immediately
with empty diagnostics and an unchanged cache, skipping all validation
steps; but on an input that is not the cached object, the returned
config is a fresh object distinct from the input, that fresh object
(not the input) is what gets cached, and therefore a second call with
the same input misses the cache again and returns yet another object,
different from the first result. -/
theorem C1_cache_identity :
    ∀ (s : VState) (u d d2 : Nat),
      (s.cache = some u → validateConfig s u d = (u, 0, s)) ∧
      (s.cache ≠ some u → u < s.nextId →
        (validateConfig s u d).1 ≠ u ∧
        (validateConfig s u d).2.2.cache = some (validateConfig s u d).1 ∧
        (validateConfig (validateConfig s u d).2.2 u d2).1 ≠ (validateConfig s u d).1) := by
  intro s u d d2
  constructor
  · intro h
    simp [validateConfig, h]
  · intro h hu
    have h1 : validateConfig s u d = (s.nextId, d, ⟨some s.nextId, s.nextId + 1⟩) := by
      simp [validateConfig, h]
    have hne : s.nextId ≠ u := by omega
    rw [h1]
    refine ⟨hne, rfl, ?_⟩
    have h2 : ¬ ((⟨some s.nextId, s.nextId + 1⟩ : VState).cache = some u) := by
      simp [hne]
    simp [validateConfig, h2]

/-- Witness for C1: with the cache holding object 5, validating object 5
returns it unchanged with zero diagnostics, and validating the distinct
object 3 returns the fresh object 6, caches 6, and a repeat call with 3
returns 7, not 6. -/
theorem C1_witness :
    validateConfig ⟨some 5, 6⟩ 5 3 = (5, 0, ⟨some 5, 6⟩) ∧
    (validateConfig ⟨some 5, 6⟩ 3 0).1 ≠ 3 ∧
    (validateConfig (validateConfig ⟨some 5, 6⟩ 3 0).2.2 3 0).1 ≠
      (validateConfig ⟨some 5, 6⟩ 3 0).1 := by
  refine ⟨(C1_cache_identity ⟨some 5, 6⟩ 5 3 0).1 rfl, ?_, ?_⟩
  · exact ((C1_cache_identity ⟨some 5, 6⟩ 3 0 0).2 (by decide) (by decide)).1
  · exact ((C1_cache_identity ⟨some 5, 6⟩ 3 0 0).2 (by decide) (by decide)).2.2

/-!
Claim C2: enum-like transpile field normalization.
-/

/-- Membership of an input value in an allow-list in the sense of claim
C2: a string belongs when its lowercased, trimmed form is listed; every
non-string value is outside every allow-list. -/
def inAllowListStated (v : JVal) (A : List (Option String)) : Bool :=
  match v with
  | JVal.str s => A.contains (some (jsTrim (jsToLower s)))
  | _ => false

/-- Claim C2 as stated: for every enum-like transpile field and every
input other than null and "null", an input outside the allow-list
(every non-string included) yields the documented default, and a string
whose lowercased trimmed form is in the allow-list yields that
canonical member. -/
def claimC2Stated : Prop :=
  ∀ p ∈ transpileEnumFields, ∀ v : JVal,
    v ≠ JVal.null → v ≠ JVal.str "null" →
    (inAllowListStated v p.1 = false → getTranspileConfigOpt v p.1 p.2 = p.2) ∧
    (∀ s : String, v = JVal.str s → p.1.contains (some (jsTrim (jsToLower s))) = true →
      getTranspileConfigOpt v p.1 p.2 = some (jsTrim (jsToLower s)))

/-- Claim C2 is false as stated: the boolean true is a non-string input
outside the proxy allow-list, yet the normalizer returns null for it,
not the documented default defineproperty, because a non-string is
coerced to null before the membership test and the proxy allow-list
contains null. -/
theorem C2_counterexample : ¬ claimC2Stated := by
  intro h
  have hm : ((VALID_PROXY, some "defineproperty") :
      List (Option String) × Option String) ∈ transpileEnumFields := by
    simp [transpileEnumFields]
  exact absurd ((h _ hm (JVal.bool true) (by simp) (by simp)).1 (by decide)) (by decide)

/-- Claim C2 (amended): for every enum-like transpile field and every
input other than null and "null", a string input yields its lowercased
trimmed form when that is in the allow-list and the documented default
otherwise; a non-string input yields null when the allow-list contains
null (componentMetadata and proxy) and the documented default
otherwise. -/
theorem C2_enum_normalization :
    ∀ p ∈ transpileEnumFields, ∀ v : JVal,
      v ≠ JVal.null → v ≠ JVal.str "null" →
      (∀ s : String, v = JVal.str s →
        getTranspileConfigOpt v p.1 p.2 =
          if p.1.contains (some (jsTrim (jsToLower s))) then some (jsTrim (jsToLower s)) else p.2) ∧
      (isString v = false →
        getTranspileConfigOpt v p.1 p.2 = if p.1.contains none then none else p.2) := by
  intro p _ v h1 h2
  constructor
  · rintro s rfl
    refine getTranspileConfigOpt_str s p.1 p.2 ?_
    intro hs
    exact h2 (by rw [hs])
  · intro hv
    exact getTranspileConfigOpt_nonstr v p.1 p.2 hv h1

/-- Witness for C2: the string " CJS " normalizes to the member cjs of
the module allow-list, the string "bogus" falls back to the module
default esm, and the non-string true yields null for proxy. -/
theorem C2_witness :
    getTranspileConfigOpt (JVal.str " CJS ") VALID_MODULE (some "esm") = some "cjs" ∧
    getTranspileConfigOpt (JVal.str "bogus") VALID_MODULE (some "esm") = some "esm" ∧
    getTranspileConfigOpt (JVal.bool true) VALID_PROXY (some "defineproperty") = none := by
  refine ⟨?_, ?_, ?_⟩
  · have h := (C2_enum_normalization (VALID_MODULE, some "esm")
      (by simp [transpileEnumFields]) (JVal.str " CJS ") (by simp) (by simp)).1 " CJS " rfl
    rw [h]
    decide
  · have h := (C2_enum_normalization (VALID_MODULE, some "esm")
      (by simp [transpileEnumFields]) (JVal.str "bogus") (by simp) (by simp)).1 "bogus" rfl
    rw [h]
    decide
  · have h := (C2_enum_normalization (VALID_PROXY, some "defineproperty")
      (by simp [transpileEnumFields]) (JVal.bool true) (by simp) (by simp)).2 (by decide)
    rw [h]
    decide

/-!
Claims C3, C4, C5: inline field logic of full validation.
-/

/-- A user config on which no modelled field was ever set. -/
def cfgAllAbsent : UnvalidatedConfig :=
  { flags := ⟨JVal.undef, JVal.undef⟩
    devMode := JVal.undef
    extras := none
    hashFileNames := JVal.undef
    hashedFileNameLength := JVal.undef
    watchIgnoredRegex := WVal.undef }

/-- Claim C3: in full validation of hashedFileNameLength, a non-numeric
value is silently replaced by the default 8; the boundaries 4 and 32
are accepted with no diagnostic; a numeric value below 4 or above 32
appends exactly one error diagnostic from these checks; and the
out-of-range value itself is neither clamped nor rejected: it remains
in the returned config. -/
theorem C3_hashedFileNameLength :
    ∀ (c : UnvalidatedConfig) (n : Int),
      (c.hashedFileNameLength = JVal.num n →
        (validateConfigFields c).1.hashedFileNameLength = n ∧
        (4 ≤ n → n ≤ 32 → (validateConfigFields c).2 = []) ∧
        (n < 4 → (validateConfigFields c).2.length = 1) ∧
        (n > 32 → (validateConfigFields c).2.length = 1)) ∧
      (isNumber c.hashedFileNameLength = false →
        (validateConfigFields c).1.hashedFileNameLength = 8 ∧
        (validateConfigFields c).2 = []) := by
  intro c n
  constructor
  · intro h
    refine ⟨?_, ?_, ?_, ?_⟩ <;>
      simp only [validateConfigFields, validateHashing, h,
        DEFAULT_HASHED_FILENAME_LENTH, MIN_HASHED_FILENAME_LENTH,
        MAX_HASHED_FILENAME_LENTH] <;>
      split_ifs <;> simp_all <;> omega
  · intro h
    cases hv : c.hashedFileNameLength <;>
      simp_all [validateConfigFields, validateHashing, isNumber,
        DEFAULT_HASHED_FILENAME_LENTH, MIN_HASHED_FILENAME_LENTH,
        MAX_HASHED_FILENAME_LENTH]

/-- Witness for C3: a length of 33 is kept in the config and appends
exactly one diagnostic, a length of 4 passes with none, and an absent
length silently becomes 8. -/
theorem C3_witness :
    (validateConfigFields { cfgAllAbsent with hashedFileNameLength := JVal.num 33 }).1.hashedFileNameLength = 33 ∧
    (validateConfigFields { cfgAllAbsent with hashedFileNameLength := JVal.num 33 }).2.length = 1 ∧
    (validateConfigFields { cfgAllAbsent with hashedFileNameLength := JVal.num 4 }).2 = [] ∧
    (validateConfigFields cfgAllAbsent).1.hashedFileNameLength = 8 := by
  refine ⟨?_, ?_, ?_, ?_⟩
  · exact ((C3_hashedFileNameLength _ 33).1 rfl).1
  · exact ((C3_hashedFileNameLength _ 33).1 rfl).2.2.2 (by omega)
  · exact ((C3_hashedFileNameLength _ 4).1 rfl).2.1 (by omega) (by omega)
  · exact ((C3_hashedFileNameLength cfgAllAbsent 0).2 rfl).1

/-- Claim C4 as stated: after full validation every sub-flag of extras
(scopedSlotTextContentFix included) holds a boolean, with an absent
extras object yielding false everywhere, and a truthy
experimentalSlotFixes forces the four dependent fixes to true while a
falsy one forces nothing. -/
def claimC4Stated : Prop :=
  ∀ c : UnvalidatedConfig,
    isBoolean (validateConfigFields c).1.extras.appendChildSlotFix = true ∧
    isBoolean (validateConfigFields c).1.extras.cloneNodeFix = true ∧
    isBoolean (validateConfigFields c).1.extras.lifecycleDOMEvents = true ∧
    isBoolean (validateConfigFields c).1.extras.scriptDataOpts = true ∧
    isBoolean (validateConfigFields c).1.extras.slotChildNodesFix = true ∧
    isBoolean (validateConfigFields c).1.extras.initializeNextTick = true ∧
    isBoolean (validateConfigFields c).1.extras.tagNameTransform = true ∧
    isBoolean (validateConfigFields c).1.extras.experimentalSlotFixes = true ∧
    isBoolean (validateConfigFields c).1.extras.scopedSlotTextContentFix = true ∧
    (c.extras = none → (validateConfigFields c).1.extras.scopedSlotTextContentFix = JVal.bool false)

/-- Claim C4 is false as stated: with extras absent, the validated
scopedSlotTextContentFix property is still undefined, not a boolean;
the source coerces only eight extras properties by double negation and
scopedSlotTextContentFix is not among them. -/
theorem C4_counterexample : ¬ claimC4Stated := by
  intro h
  exact absurd (h cfgAllAbsent).2.2.2.2.2.2.2.2.1 (by decide)

/-- Claim C4 (amended): after full validation the eight extras
sub-flags appendChildSlotFix, cloneNodeFix, lifecycleDOMEvents,
scriptDataOpts, slotChildNodesFix, initializeNextTick,
tagNameTransform and experimentalSlotFixes hold booleans obtained by
double-negation coercion (absent flags become false); a truthy
experimentalSlotFixes then forces appendChildSlotFix, cloneNodeFix,
slotChildNodesFix and scopedSlotTextContentFix to true with no other
extras flag affected, while a falsy experimentalSlotFixes forces
nothing: the three coerced fixes keep their own coerced values and
scopedSlotTextContentFix is left exactly as supplied (it is not
boolean-coerced and does not default to false). -/
theorem C4_extras_cascade :
    ∀ c : UnvalidatedConfig,
      (validateConfigFields c).1.extras.lifecycleDOMEvents =
        JVal.bool (truthy (c.extras.getD emptyExtras).lifecycleDOMEvents) ∧
      (validateConfigFields c).1.extras.scriptDataOpts =
        JVal.bool (truthy (c.extras.getD emptyExtras).scriptDataOpts) ∧
      (validateConfigFields c).1.extras.initializeNextTick =
        JVal.bool (truthy (c.extras.getD emptyExtras).initializeNextTick) ∧
      (validateConfigFields c).1.extras.tagNameTransform =
        JVal.bool (truthy (c.extras.getD emptyExtras).tagNameTransform) ∧
      (validateConfigFields c).1.extras.experimentalSlotFixes =
        JVal.bool (truthy (c.extras.getD emptyExtras).experimentalSlotFixes) ∧
      (truthy (c.extras.getD emptyExtras).experimentalSlotFixes = true →
        (validateConfigFields c).1.extras.appendChildSlotFix = JVal.bool true ∧
        (validateConfigFields c).1.extras.cloneNodeFix = JVal.bool true ∧
        (validateConfigFields c).1.extras.slotChildNodesFix = JVal.bool true ∧
        (validateConfigFields c).1.extras.scopedSlotTextContentFix = JVal.bool true) ∧
      (truthy (c.extras.getD emptyExtras).experimentalSlotFixes = false →
        (validateConfigFields c).1.extras.appendChildSlotFix =
          JVal.bool (truthy (c.extras.getD emptyExtras).appendChildSlotFix) ∧
        (validateConfigFields c).1.extras.cloneNodeFix =
          JVal.bool (truthy (c.extras.getD emptyExtras).cloneNodeFix) ∧
        (validateConfigFields c).1.extras.slotChildNodesFix =
          JVal.bool (truthy (c.extras.getD emptyExtras).slotChildNodesFix) ∧
        (validateConfigFields c).1.extras.scopedSlotTextContentFix =
          (c.extras.getD emptyExtras).scopedSlotTextContentFix) := by
  intro c
  cases hx : truthy (c.extras.getD emptyExtras).experimentalSlotFixes <;>
    simp [validateConfigFields, validateExtras, truthy_bool, hx]

/-- Witness for C4: setting only experimentalSlotFixes to true turns
the four dependent fixes on, and with it absent a string-valued
scopedSlotTextContentFix survives validation unchanged. -/
theorem C4_witness :
    (validateConfigFields { cfgAllAbsent with
      extras := some { emptyExtras with experimentalSlotFixes := JVal.bool true } }).1.extras.scopedSlotTextContentFix = JVal.bool true ∧
    (validateConfigFields { cfgAllAbsent with
      extras := some { emptyExtras with scopedSlotTextContentFix := JVal.str "keep" } }).1.extras.scopedSlotTextContentFix = JVal.str "keep" := by
  constructor
  · obtain ⟨-, -, -, -, -, hcasc, -⟩ := C4_extras_cascade { cfgAllAbsent with
      extras := some { emptyExtras with experimentalSlotFixes := JVal.bool true } }
    exact (hcasc (by decide)).2.2.2
  · obtain ⟨-, -, -, -, -, -, hno⟩ := C4_extras_cascade { cfgAllAbsent with
      extras := some { emptyExtras with scopedSlotTextContentFix := JVal.str "keep" } }
    exact (hno (by decide)).2.2.2

/-- The config of the first C5 example: prod flag true together with an
explicit devMode true. -/
def cfgProdTrueDevTrue : UnvalidatedConfig :=
  { cfgAllAbsent with flags := ⟨JVal.bool true, JVal.undef⟩, devMode := JVal.bool true }

/-- The config of the second C5 example: dev flag true together with an
explicit devMode false. -/
def cfgDevTrueDevModeFalse : UnvalidatedConfig :=
  { cfgAllAbsent with flags := ⟨JVal.undef, JVal.bool true⟩, devMode := JVal.bool false }

/-- Claim C5: full validation resolves devMode with the precedence, a
set (truthy) flags.prod forces devMode false, else a set flags.dev
forces devMode true, else an explicit boolean devMode is kept, else
devMode defaults to false; and in particular the three quoted example
configs resolve to false, true and false. -/
theorem C5_devMode_precedence :
    (∀ c : UnvalidatedConfig, truthy c.flags.prod = true →
      (validateConfigFields c).1.devMode = false) ∧
    (∀ c : UnvalidatedConfig, truthy c.flags.prod = false → truthy c.flags.dev = true →
      (validateConfigFields c).1.devMode = true) ∧
    (∀ (c : UnvalidatedConfig) (b : Bool), truthy c.flags.prod = false →
      truthy c.flags.dev = false → c.devMode = JVal.bool b →
      (validateConfigFields c).1.devMode = b) ∧
    (∀ c : UnvalidatedConfig, truthy c.flags.prod = false → truthy c.flags.dev = false →
      isBoolean c.devMode = false → (validateConfigFields c).1.devMode = false) ∧
    (validateConfigFields cfgProdTrueDevTrue).1.devMode = false ∧
    (validateConfigFields cfgDevTrueDevModeFalse).1.devMode = true ∧
    (validateConfigFields cfgAllAbsent).1.devMode = false := by
  refine ⟨?_, ?_, ?_, ?_, by decide, by decide, by decide⟩
  · intro c h
    simp [validateConfigFields, resolveDevMode, h]
  · intro c h1 h2
    simp [validateConfigFields, resolveDevMode, h1, h2]
  · intro c b h1 h2 h3
    simp [validateConfigFields, resolveDevMode, h1, h2, h3]
  · intro c h1 h2 h3
    cases hv : c.devMode <;>
      simp_all [validateConfigFields, resolveDevMode, isBoolean, DEFAULT_DEV_MODE]

/-- Witness for C5: the prod flag beats an explicit devMode true, the
dev flag beats an explicit devMode false, and a kept boolean devMode
comes through untouched. -/
theorem C5_witness :
    (validateConfigFields cfgProdTrueDevTrue).1.devMode = false ∧
    (validateConfigFields cfgDevTrueDevModeFalse).1.devMode = true ∧
    (validateConfigFields { cfgAllAbsent with devMode := JVal.bool true }).1.devMode = true := by
  refine ⟨?_, ?_, ?_⟩
  · exact C5_devMode_precedence.1 cfgProdTrueDevTrue (by decide)
  · exact C5_devMode_precedence.2.1 cfgDevTrueDevModeFalse (by decide) (by decide)
  · exact C5_devMode_precedence.2.2.1 _ true (by decide) (by decide) rfl

/-!
Claims C6 to C10: the null sentinel, watch-ignore normalization, and the
transpile module.
-/

/-- Claim C6: for every allow-list and every fallback, the normalizer
returns null when the input is literally null or the string "null"; in
particular for componentMetadata and proxy, whose allow-lists contain
null as a regular member, these inputs yield null and not the proxy
default defineproperty. -/
theorem C6_null_sentinel :
    (∀ (A : List (Option String)) (d : Option String),
      getTranspileConfigOpt JVal.null A d = none ∧
      getTranspileConfigOpt (JVal.str "null") A d = none) ∧
    VALID_METADATA.contains none = true ∧
    VALID_PROXY.contains none = true ∧
    getTranspileConfigOpt JVal.null VALID_METADATA none = none ∧
    getTranspileConfigOpt (JVal.str "null") VALID_METADATA none = none ∧
    getTranspileConfigOpt JVal.null VALID_PROXY (some "defineproperty") = none ∧
    getTranspileConfigOpt (JVal.str "null") VALID_PROXY (some "defineproperty") = none ∧
    (none : Option String) ≠ some "defineproperty" := by
  refine ⟨fun A d => ⟨?_, ?_⟩, by decide, by decide, by decide, by decide,
    by decide, by decide, by decide⟩
  · simp [getTranspileConfigOpt]
  · simp [getTranspileConfigOpt]

/-- Claim C7: full validation leaves watchIgnoredRegex as exactly the
genuine RegExp values of the input, in order: every element of the
result is a RegExp; an array input is filtered down to its RegExp
entries; a single RegExp is wrapped into a one-element array; and a
string, number, boolean, null or absent input yields the empty
array. -/
theorem C7_watchIgnoredRegex :
    ∀ c : UnvalidatedConfig,
      (∀ x ∈ (validateConfigFields c).1.watchIgnoredRegex, isRegexItem x = true) ∧
      (∀ xs, c.watchIgnoredRegex = WVal.arr xs →
        (validateConfigFields c).1.watchIgnoredRegex = xs.filter isRegexItem) ∧
      (∀ i, c.watchIgnoredRegex = WVal.regex i →
        (validateConfigFields c).1.watchIgnoredRegex = [WItem.regex i]) ∧
      (∀ s, c.watchIgnoredRegex = WVal.strV s →
        (validateConfigFields c).1.watchIgnoredRegex = []) ∧
      (∀ n, c.watchIgnoredRegex = WVal.numV n →
        (validateConfigFields c).1.watchIgnoredRegex = []) ∧
      (∀ b, c.watchIgnoredRegex = WVal.boolV b →
        (validateConfigFields c).1.watchIgnoredRegex = []) ∧
      (c.watchIgnoredRegex = WVal.null →
        (validateConfigFields c).1.watchIgnoredRegex = []) ∧
      (c.watchIgnoredRegex = WVal.undef →
        (validateConfigFields c).1.watchIgnoredRegex = []) := by
  intro c
  have hr : (validateConfigFields c).1.watchIgnoredRegex =
      normalizeWatchIgnoredRegex c.watchIgnoredRegex := rfl
  rw [hr]
  refine ⟨?_, ?_, ?_, ?_, ?_, ?_, ?_, ?_⟩
  · intro x hx
    cases hv : c.watchIgnoredRegex <;>
      simp_all [normalizeWatchIgnoredRegex, toWItem, isRegexItem, List.mem_filter]
  · rintro xs h
    simp [normalizeWatchIgnoredRegex, h]
  · rintro i h
    simp [normalizeWatchIgnoredRegex, h, toWItem, isRegexItem]
  · rintro s h
    simp [normalizeWatchIgnoredRegex, h, toWItem, isRegexItem]
  · rintro n h
    simp [normalizeWatchIgnoredRegex, h, toWItem, isRegexItem]
  · rintro b h
    simp [normalizeWatchIgnoredRegex, h, toWItem, isRegexItem]
  · rintro h
    simp [normalizeWatchIgnoredRegex, h]
  · rintro h
    simp [normalizeWatchIgnoredRegex, h]

/-- A user config whose watchIgnoredRegex is an array mixing two RegExp
values with a string and a number. -/
def cfgWatchMixed : UnvalidatedConfig :=
  { cfgAllAbsent with
    watchIgnoredRegex := WVal.arr [WItem.regex 1, WItem.strI "x", WItem.regex 2, WItem.numI 7] }

/-- Witness for C7: a mixed array keeps only its two RegExp entries in
order, a single RegExp becomes a one-element array, and a string input
is discarded entirely. -/
theorem C7_witness :
    (validateConfigFields cfgWatchMixed).1.watchIgnoredRegex =
        [WItem.regex 1, WItem.regex 2] ∧
    (validateConfigFields { cfgAllAbsent with
      watchIgnoredRegex := WVal.regex 9 }).1.watchIgnoredRegex = [WItem.regex 9] ∧
    (validateConfigFields { cfgAllAbsent with
      watchIgnoredRegex := WVal.strV "src" }).1.watchIgnoredRegex = [] := by
  refine ⟨?_, ?_, ?_⟩
  · rw [(C7_watchIgnoredRegex _).2.1 _ rfl]
    decide
  · exact (C7_watchIgnoredRegex _).2.2.1 9 rfl
  · exact (C7_watchIgnoredRegex _).2.2.2.1 "src" rfl

/-- A transpile options object with no property set. -/
def optsAllAbsent : TranspileOptions :=
  { file := JVal.undef
    componentExport := JVal.undef
    componentMetadata := JVal.undef
    proxy := JVal.undef
    module := JVal.undef
    style := JVal.undef
    styleImportData := JVal.undef
    target := JVal.undef }

/-- Claim C8: getTranspileResults is total, and whenever the input file
is not a string the result envelope carries the placeholder path
module.tsx and the extension parsed from that placeholder; in every
case the envelope carries empty diagnostics and imports and null output
path and source map. -/
theorem C8_getTranspileResults :
    ∀ (code : JVal) (input : TranspileOptions),
      (isString input.file = false →
        (getTranspileResults code input).results.inputFilePath = "module.tsx" ∧
        (getTranspileResults code input).results.inputFileExtension =
          (parseImportPath "module.tsx").ext) ∧
      (getTranspileResults code input).results.diagnostics = [] ∧
      (getTranspileResults code input).results.imports = [] ∧
      (getTranspileResults code input).results.map = none ∧
      (getTranspileResults code input).results.outputFilePath = none := by
  intro code input
  refine ⟨?_, rfl, rfl, rfl, rfl⟩
  intro h
  cases hf : input.file <;> simp_all [getTranspileResults, isString]

/-- Witness for C8: with an absent file property the envelope carries
the placeholder path, its parsed extension tsx, and the empty or null
scaffolding fields. -/
theorem C8_witness :
    (getTranspileResults (JVal.str "let x = 1") optsAllAbsent).results.inputFilePath = "module.tsx" ∧
    (getTranspileResults (JVal.str "let x = 1") optsAllAbsent).results.inputFileExtension =
      (parseImportPath "module.tsx").ext ∧
    (getTranspileResults (JVal.str "let x = 1") optsAllAbsent).results.diagnostics = [] := by
  refine ⟨?_, ?_, ?_⟩
  · exact ((C8_getTranspileResults (JVal.str "let x = 1") optsAllAbsent).1 (by decide)).1
  · exact ((C8_getTranspileResults (JVal.str "let x = 1") optsAllAbsent).1 (by decide)).2
  · exact (C8_getTranspileResults (JVal.str "let x = 1") optsAllAbsent).2.1

/-- Claim C9: the process-wide system memo of getTranspileConfig is not
limited to holding the constructed default: a call that supplies a
system overwrites the memo slot with it whatever the slot held, a
subsequent call without a system reuses the caller-supplied system from
the slot, and only a call finding the slot empty constructs the
default. -/
theorem C9_transpileCtx_sys_memo :
    (∀ (m : Option Nat) (s d : Nat), transpileCtxSysNext m (some s) d = some s) ∧
    (∀ s d : Nat, transpileCtxSysNext (some s) none d = some s) ∧
    (∀ d : Nat, transpileCtxSysNext none none d = some d) :=
  ⟨fun _ _ _ => rfl, fun _ _ => rfl, fun _ => rfl⟩

/-- Claim C10: getTranspileResults mutates its caller-supplied input
object: whenever input.file is not a string, the placeholder module.tsx
is assigned to input.file itself (rendered here by the input component
of the result, which models the state of the caller object after the
call), and every other input property is left unchanged. -/
theorem C10_input_file_mutation :
    ∀ (code : JVal) (input : TranspileOptions), isString input.file = false →
      (getTranspileResults code input).input.file = JVal.str "module.tsx" ∧
      (getTranspileResults code input).input.componentExport = input.componentExport ∧
      (getTranspileResults code input).input.componentMetadata = input.componentMetadata ∧
      (getTranspileResults code input).input.proxy = input.proxy ∧
      (getTranspileResults code input).input.module = input.module ∧
      (getTranspileResults code input).input.style = input.style ∧
      (getTranspileResults code input).input.styleImportData = input.styleImportData ∧
      (getTranspileResults code input).input.target = input.target := by
  intro code input h
  cases hf : input.file <;> simp_all [getTranspileResults, isString]

/-- Witness for C10: after a call with an absent file and a set proxy
property, the caller object carries the placeholder file while proxy is
untouched. -/
theorem C10_witness :
    (getTranspileResults (JVal.str "let x = 1")
      { optsAllAbsent with proxy := JVal.str "defineproperty" }).input.file = JVal.str "module.tsx" ∧
    (getTranspileResults (JVal.str "let x = 1")
      { optsAllAbsent with proxy := JVal.str "defineproperty" }).input.proxy = JVal.str "defineproperty" := by
  constructor
  · exact (C10_input_file_mutation (JVal.str "let x = 1")
      { optsAllAbsent with proxy := JVal.str "defineproperty" } (by decide)).1
  · exact (C10_input_file_mutation (JVal.str "let x = 1")
      { optsAllAbsent with proxy := JVal.str "defineproperty" } (by decide)).2.2.2.1
